import Mathlib

/-!
Shallow embedding of `src/zmwangx/infrastructure.py` and proofs about it.

The module provides:
- `NormalizedStringIO`, a `io.StringIO` subclass whose write operations
  normalize `str`/`bytes` input to text (`bytes` are decoded as UTF-8);
- `Tee`, a write-only `io.TextIOBase` that duplicates writes to a wrapped
  text stream and to an internal `NormalizedStringIO`;
- four generator-based context managers (`capture_stdout`, `capture_stderr`,
  `tee_stderr`, `change_home`) that swap a process-global slot
  (`sys.stdout`, `sys.stderr`, the `HOME` environment variable) and put the
  saved value back after the `yield`.

Python exceptions are modelled with `Except`; mutation is modelled by
explicit state passing: each operation takes the object state and returns
the new state together with the Python return value (or the raised error).
-/

/-- Python errors raised by this module or by the `io` machinery under it:
`ValueError` (with its message), `UnicodeDecodeError` (raised by
`bytes.decode` on invalid UTF-8) and `io.UnsupportedOperation` (with its
message). -/
inductive PyErr where
  | valueError (msg : String)
  | unicodeDecodeError
  | unsupportedOperation (msg : String)
  deriving Repr, DecidableEq

/-- A Python value handed to a write operation: a `str`, a `bytes`
(sequence of bytes, each `< 256`), or a value of any other type, of which
only the type name is relevant (the code only reads `type(s).__name__`). -/
inductive PyVal where
  | str (s : String)
  | bytes (b : List Nat)
  | other (typeName : String)
  deriving Repr, DecidableEq

/-- Whether a byte is a UTF-8 continuation byte (`0x80..0xBF`). -/
def isUtf8Cont (b : Nat) : Bool := 0x80 ≤ b && b < 0xC0

/-- Strict UTF-8 decoder, the model of CPython's `bytes.decode('utf-8')`:
rejects truncated sequences, stray continuation bytes, overlong encodings
(lead bytes `0xC0`/`0xC1`, and the overlong ranges of 3- and 4-byte
sequences), surrogate code points and code points above `0x10FFFF`. -/
def utf8Decode : List Nat → Option (List Char)
  | [] => some []
  | b :: rest =>
    if b < 0x80 then
      (utf8Decode rest).map (fun cs => Char.ofNat b :: cs)
    else if b < 0xC2 then
      none
    else if b < 0xE0 then
      match rest with
      | [] => none
      | b1 :: rest1 =>
        if isUtf8Cont b1 then
          (utf8Decode rest1).map
            (fun cs => Char.ofNat ((b - 0xC0) * 0x40 + (b1 - 0x80)) :: cs)
        else none
    else if b < 0xF0 then
      match rest with
      | b1 :: b2 :: rest2 =>
        if isUtf8Cont b1 && isUtf8Cont b2 then
          let v := (b - 0xE0) * 0x1000 + (b1 - 0x80) * 0x40 + (b2 - 0x80)
          if v < 0x800 || (0xD800 ≤ v && v < 0xE000) then none
          else (utf8Decode rest2).map (fun cs => Char.ofNat v :: cs)
        else none
      | _ => none
    else if b < 0xF5 then
      match rest with
      | b1 :: b2 :: b3 :: rest3 =>
        if isUtf8Cont b1 && isUtf8Cont b2 && isUtf8Cont b3 then
          let v := (b - 0xF0) * 0x40000 + (b1 - 0x80) * 0x1000 +
                   (b2 - 0x80) * 0x40 + (b3 - 0x80)
          if v < 0x10000 || 0x110000 ≤ v then none
          else (utf8Decode rest3).map (fun cs => Char.ofNat v :: cs)
        else none
      | _ => none
    else none

/-- UTF-8 decoding to a `String`. -/
def utf8DecodeStr (b : List Nat) : Option String :=
  (utf8Decode b).map (fun cs => String.mk cs)

/-- State of a `NormalizedStringIO` object (fresh `io.StringIO` semantics):
the accumulated text, kept as the ordered list of successfully written
chunks, and the closed flag.  The source only ever constructs it as
`NormalizedStringIO()` (empty initial value, position `0`) and only writes
to it, so every write appends at the end; `getvalue` is the concatenation
of the chunks in write order. -/
structure NormalizedStringIO where
  chunks : List String
  closed : Bool
  deriving Repr, DecidableEq

/-- Model of `NormalizedStringIO()` — a fresh, empty, open buffer. -/
def NormalizedStringIO.fresh : NormalizedStringIO :=
  { chunks := [], closed := false }

/-- Embedding of `NormalizedStringIO.normalized` (a staticmethod):
a `str` is returned as is, `bytes` are decoded as UTF-8
(`UnicodeDecodeError` on invalid UTF-8), anything else raises
`ValueError("expected str or bytes, got <typename>")`. -/
def NormalizedStringIO.normalized : PyVal → Except PyErr String
  | PyVal.str s => Except.ok s
  | PyVal.bytes b =>
    match utf8DecodeStr b with
    | some s => Except.ok s
    | none => Except.error PyErr.unicodeDecodeError
  | PyVal.other typeName =>
    Except.error (PyErr.valueError ("expected str or bytes, got " ++ typeName))

/-- Error raised by `io.StringIO` operations on a closed object. -/
def closedFileErr : PyErr := PyErr.valueError "I/O operation on closed file"

/-- Embedding of `NormalizedStringIO.write`:
`super().write(self.normalized(s))`.  `normalized` runs first (its error
propagates before anything is written); then `io.StringIO.write` appends
the text, or raises `ValueError` if the buffer is closed.  The override
does not return `super()`'s count, so the Python return value is `None`
(`Unit` here).  The returned state is the buffer after the call (unchanged
when an error is raised, since `normalized` raises before any mutation). -/
def NormalizedStringIO.write (buf : NormalizedStringIO) (v : PyVal) :
    NormalizedStringIO × Except PyErr Unit :=
  match NormalizedStringIO.normalized v with
  | Except.error e => (buf, Except.error e)
  | Except.ok s =>
    if buf.closed then (buf, Except.error closedFileErr)
    else ({ buf with chunks := buf.chunks ++ [s] }, Except.ok ())

/-- Embedding of the list comprehension
`[self.normalized(line) for line in lines]`: normalizes left to right,
raising at the first element that is neither `str` nor UTF-8-decodable
`bytes`, in which case no element is produced at all. -/
def normalizeAll : List PyVal → Except PyErr (List String)
  | [] => Except.ok []
  | v :: vs =>
    match NormalizedStringIO.normalized v with
    | Except.error e => Except.error e
    | Except.ok s =>
      match normalizeAll vs with
      | Except.error e => Except.error e
      | Except.ok ss => Except.ok (s :: ss)

/-- Embedding of `NormalizedStringIO.writelines`: the whole list is
normalized first (the list comprehension materializes a list of `str`);
only then does `super().writelines(lines)` append them all.  A
normalization failure therefore writes nothing. -/
def NormalizedStringIO.writelines (buf : NormalizedStringIO) (vs : List PyVal) :
    NormalizedStringIO × Except PyErr Unit :=
  match normalizeAll vs with
  | Except.error e => (buf, Except.error e)
  | Except.ok ss =>
    if buf.closed then (buf, Except.error closedFileErr)
    else ({ buf with chunks := buf.chunks ++ ss }, Except.ok ())

/-- Embedding of `io.StringIO.getvalue` as inherited by
`NormalizedStringIO`: the accumulated text, or `ValueError` if the object
has been closed. -/
def NormalizedStringIO.getvalue (buf : NormalizedStringIO) :
    Except PyErr String :=
  if buf.closed then Except.error closedFileErr
  else Except.ok (String.join buf.chunks)

/-- Embedding of `io.StringIO.close`. -/
def NormalizedStringIO.close (buf : NormalizedStringIO) : NormalizedStringIO :=
  { buf with closed := true }

/-- State of the external text stream wrapped by a `Tee` (the
`io.TextIOBase` collaborator of §6 of the spec, e.g. `sys.stderr`): whether
it reports itself writable, whether it has been closed, and the log of the
exact strings its own `write` has received, in call order. -/
structure TextStream where
  writableFlag : Bool
  closed : Bool
  writes : List String
  deriving Repr, DecidableEq

/-- Embedding of `write` on the wrapped real stream: a closed text stream
raises `ValueError`; otherwise the string is received by the stream (logged)
and the number of characters written is returned, which is what
`io.TextIOBase.write` returns for text. -/
def TextStream.write (st : TextStream) (s : String) :
    TextStream × Except PyErr Nat :=
  if st.closed then (st, Except.error closedFileErr)
  else ({ st with writes := st.writes ++ [s] }, Except.ok s.length)

/-- Embedding of `close` on the wrapped real stream. -/
def TextStream.close (st : TextStream) : TextStream :=
  { st with closed := true }

/-- State of a `Tee` object: the wrapped external stream (`self._textio`)
and the owned internal buffer (`self._stringio`). -/
structure Tee where
  textStream : TextStream
  strBuffer : NormalizedStringIO
  deriving Repr, DecidableEq

/-- Embedding of `Tee.__init__`: raises
`io.UnsupportedOperation("not writable")` when the supplied stream is not
writable; otherwise stores the stream and a fresh `NormalizedStringIO()`. -/
def Tee.init (st : TextStream) : Except PyErr Tee :=
  if !st.writableFlag then
    Except.error (PyErr.unsupportedOperation "not writable")
  else
    Except.ok { textStream := st, strBuffer := NormalizedStringIO.fresh }

/-- Embedding of `Tee.close`: closes the wrapped stream, then the internal
buffer. -/
def Tee.close (t : Tee) : Tee :=
  { textStream := TextStream.close t.textStream,
    strBuffer := NormalizedStringIO.close t.strBuffer }

/-- Embedding of `Tee.getvalue`: `self._stringio.getvalue()`. -/
def Tee.getvalue (t : Tee) : Except PyErr String :=
  NormalizedStringIO.getvalue t.strBuffer

/-- Embedding of `Tee.write`: `bytes_written = self._textio.write(s)`
first, then `self._stringio.write(s)`, and `bytes_written` is returned.
An error from either write propagates (from the first before the second
runs). -/
def Tee.write (t : Tee) (s : String) : Tee × Except PyErr Nat :=
  match TextStream.write t.textStream s with
  | (st, Except.error e) => ({ t with textStream := st }, Except.error e)
  | (st, Except.ok bytesWritten) =>
    match NormalizedStringIO.write t.strBuffer (PyVal.str s) with
    | (buf, Except.error e) =>
      ({ textStream := st, strBuffer := buf }, Except.error e)
    | (buf, Except.ok _) =>
      ({ textStream := st, strBuffer := buf }, Except.ok bytesWritten)

/-- Embedding of the staticmethod `Tee.read(size)`: Python does not pass
the instance to a staticmethod, so the function has no access to any state
and unconditionally raises `io.UnsupportedOperation("not readable")`. -/
def Tee.read (_size : Int) : Except PyErr String :=
  Except.error (PyErr.unsupportedOperation "not readable")

/-- Embedding of the staticmethod `Tee.readable()`: constantly `False`. -/
def Tee.readable : Bool := false

/-- Embedding of the staticmethod `Tee.readline(size=-1)`. -/
def Tee.readline (_size : Int) : Except PyErr String :=
  Except.error (PyErr.unsupportedOperation "not readable")

/-- Embedding of the staticmethod `Tee.readlines(hint=-1)`. -/
def Tee.readlines (_hint : Int) : Except PyErr (List String) :=
  Except.error (PyErr.unsupportedOperation "not readable")

/-- Embedding of the staticmethod `Tee.seek(offset, whence=os.SEEK_SET)`:
unconditionally raises `io.UnsupportedOperation("not seekable")`. -/
def Tee.seek (_offset : Int) (_whence : Int) : Except PyErr Nat :=
  Except.error (PyErr.unsupportedOperation "not seekable")

/-- Embedding of the staticmethod `Tee.seekable()`: constantly `False`. -/
def Tee.seekable : Bool := false

/-- Embedding of the staticmethod `Tee.tell()`. -/
def Tee.tell : Except PyErr Nat :=
  Except.error (PyErr.unsupportedOperation "not seekable")

/-- Embedding of the staticmethod `Tee.truncate(size=None)`. -/
def Tee.truncate (_size : Option Int) : Except PyErr Nat :=
  Except.error (PyErr.unsupportedOperation "not seekable")

/-- Embedding of the staticmethod `Tee.writable()`: constantly `True`. -/
def Tee.writable : Bool := true

/-- Process-global state touched by the four context managers: the object
sitting in `sys.stdout` and `sys.stderr` (objects are identified by a
`Nat` identity, as with Python's `id`), the `HOME` environment variable
(`none` when unset, as with `'HOME' in os.environ` being false), the set
of directories currently existing on the filesystem, and two counters that
supply fresh object identities and fresh `tempfile.mkdtemp` names. -/
structure PyWorld where
  sysStdout : Nat
  sysStderr : Nat
  envHome : Option String
  dirs : List String
  nextObjId : Nat
  nextTmp : Nat
  deriving Repr, DecidableEq

/-- Path returned by the `n`-th call of `tempfile.mkdtemp`. -/
def tmpName (n : Nat) : String := "/tmp/tmp" ++ toString n

/-- The body of a `with` block: it transforms the world and reports whether
it raised an exception (`true`) or completed normally (`false`). -/
def PyBody : Type := PyWorld → PyWorld × Bool

/-- Embedding of `capture_stdout` applied around a body, following the
semantics of a `@contextmanager` generator: the statements before `yield`
run on entry (save `sys.stdout`, install a fresh `NormalizedStringIO`,
here represented by a fresh object identity); when the body completes
normally, execution resumes after `yield` and `sys.stdout` is restored;
when the body raises, the exception is thrown into the generator at the
`yield` and, with no `try`/`finally` around it, the assignment after
`yield` never runs — the exception propagates with `sys.stdout` still
holding the replacement object. -/
def capture_stdout (w : PyWorld) (body : PyBody) : PyWorld × Bool :=
  let savedStdout := w.sysStdout
  let w1 := { w with sysStdout := w.nextObjId, nextObjId := w.nextObjId + 1 }
  let r := body w1
  if r.2 then (r.1, true)
  else ({ r.1 with sysStdout := savedStdout }, false)

/-- Embedding of `capture_stderr`, exactly analogous to `capture_stdout`
but swapping `sys.stderr`. -/
def capture_stderr (w : PyWorld) (body : PyBody) : PyWorld × Bool :=
  let savedStderr := w.sysStderr
  let w1 := { w with sysStderr := w.nextObjId, nextObjId := w.nextObjId + 1 }
  let r := body w1
  if r.2 then (r.1, true)
  else ({ r.1 with sysStderr := savedStderr }, false)

/-- Embedding of `tee_stderr`: `sys.stderr = Tee(sys.stderr)` installs a
new `Tee` object (a fresh object identity; `sys.stderr` is writable, so
`Tee.__init__` succeeds) and the original object is restored after the
`yield` only on normal completion, as in `capture_stdout`. -/
def tee_stderr (w : PyWorld) (body : PyBody) : PyWorld × Bool :=
  let savedStderr := w.sysStderr
  let w1 := { w with sysStderr := w.nextObjId, nextObjId := w.nextObjId + 1 }
  let r := body w1
  if r.2 then (r.1, true)
  else ({ r.1 with sysStderr := savedStderr }, false)

/-- Embedding of `change_home`: on entry it records `os.environ['HOME']`
when set (`saved_home = None` otherwise), creates a fresh temporary
directory and points `HOME` at it.  After the `yield` — reached only when
the body completes normally, since there is no `try`/`finally` — it
removes the temporary directory with `shutil.rmtree` and then restores
`HOME` only when `saved_home is not None`; when `HOME` was unset before
entry no branch runs and `HOME` keeps whatever value it has at the end of
the body (the temporary path, unless the body changed it). -/
def change_home (w : PyWorld) (body : PyBody) : PyWorld × Bool :=
  let savedHome := w.envHome
  let tmpHome := tmpName w.nextTmp
  let w1 := { w with envHome := some tmpHome,
                     dirs := w.dirs ++ [tmpHome],
                     nextTmp := w.nextTmp + 1 }
  let r := body w1
  if r.2 then (r.1, true)
  else
    let w3 := { r.1 with dirs := r.1.dirs.filter (fun d => d ≠ tmpHome) }
    match savedHome with
    | some h => ({ w3 with envHome := some h }, false)
    | none => (w3, false)

/-- The text actually stored for a written value: `some` of the normalized
text when normalization succeeds, `none` when the write raises. -/
def normWritten (v : PyVal) : Option String :=
  match NormalizedStringIO.normalized v with
  | Except.ok s => some s
  | Except.error _ => none

/-- A sequence of `write` calls on a `NormalizedStringIO`, keeping the
buffer state across calls (a caller that catches the raised errors and
keeps writing). -/
def writeSeq (buf : NormalizedStringIO) : List PyVal → NormalizedStringIO
  | [] => buf
  | v :: vs => writeSeq ( NormalizedStringIO.write buf v).1 vs

/-- Joining a one-element list of strings gives back the string. -/
theorem join_singleton (s : String) : String.join [s] = s := by
  apply String.ext
  simp [String.join_eq]

/-- Joining after appending one string appends that string to the join. -/
theorem join_append_singleton (l : List String) (s : String) :
    String.join (l ++ [s]) = String.join l ++ s := by
  apply String.ext
  simp [String.join_eq, String.data_append]

/-- On an open buffer, a sequence of `write` calls keeps the buffer open
and appends exactly the normalized text of the successful writes, in
order. -/
theorem writeSeq_spec (vs : List PyVal) :
    ∀ buf : NormalizedStringIO, buf.closed = false →
      writeSeq buf vs =
        { chunks := buf.chunks ++ vs.filterMap normWritten, closed := false } := by
  induction vs with
  | nil =>
    intro buf h
    cases buf
    simp_all [writeSeq]
  | cons v vs ih =>
    intro buf h
    cases hn : NormalizedStringIO.normalized v with
    | error e =>
      have h1 : ( NormalizedStringIO.write buf v).1 = buf := by
        simp [ NormalizedStringIO.write, hn]
      simp [writeSeq, h1, ih buf h, List.filterMap_cons, normWritten, hn]
    | ok s =>
      have h1 : ( NormalizedStringIO.write buf v).1 =
          { buf with chunks := buf.chunks ++ [s] } := by
        simp [ NormalizedStringIO.write, hn, h]
      rw [writeSeq, h1, ih ⟨buf.chunks ++ [s], buf.closed⟩ h]
      simp [List.filterMap_cons, normWritten, hn]

/-- If some element of the list fails to normalize, the whole list
comprehension raises (at its first failing element). -/
theorem normalizeAll_error_of_mem (vs : List PyVal) (v : PyVal) (e : PyErr)
    (hmem : v ∈ vs) (he : NormalizedStringIO.normalized v = Except.error e) :
    ∃ e2, normalizeAll vs = Except.error e2 := by
  induction vs with
  | nil => cases hmem
  | cons w ws ih =>
    rcases List.mem_cons.mp hmem with rfl | hmem2
    · exact ⟨e, by simp [normalizeAll, he]⟩
    · cases hw : NormalizedStringIO.normalized w with
      | error e3 => exact ⟨e3, by simp [normalizeAll, hw]⟩
      | ok s =>
        rcases ih hmem2 with ⟨e2, h2⟩
        exact ⟨e2, by simp [normalizeAll, hw, h2]⟩

/-- C4: writing a value that is neither text nor bytes to a
`NormalizedStringIO` raises the invalid-input error
`ValueError("expected str or bytes, got <typename>")` and leaves the
buffer state — hence the text observable through `getvalue` — unchanged. -/
theorem write_non_text_non_bytes_fails_buffer_unchanged
    (buf : NormalizedStringIO) (typeName : String) :
    NormalizedStringIO.write buf (PyVal.other typeName) =
      (buf, Except.error
        (PyErr.valueError ("expected str or bytes, got " ++ typeName))) ∧
    NormalizedStringIO.getvalue
        ( NormalizedStringIO.write buf (PyVal.other typeName)).1 =
      NormalizedStringIO.getvalue buf :=
  ⟨rfl, rfl⟩

/-- C7: the read/seek family on `Tee` are staticmethods that receive no
instance state at all, so on every `Tee`, whatever was written and whether
or not it is closed, `read`, `readline`, `readlines`, `seek`, `tell` and
`truncate` raise `io.UnsupportedOperation`, `readable()` and `seekable()`
return `False`, and `writable()` returns `True`. -/
theorem tee_read_seek_family_unsupported
    (size1 size2 hint offset whence : Int) (size3 : Option Int) :
    Tee.read size1 = Except.error (PyErr.unsupportedOperation "not readable") ∧
    Tee.readline size2 =
      Except.error (PyErr.unsupportedOperation "not readable") ∧
    Tee.readlines hint =
      Except.error (PyErr.unsupportedOperation "not readable") ∧
    Tee.seek offset whence =
      Except.error (PyErr.unsupportedOperation "not seekable") ∧
    Tee.tell = Except.error (PyErr.unsupportedOperation "not seekable") ∧
    Tee.truncate size3 =
      Except.error (PyErr.unsupportedOperation "not seekable") ∧
    Tee.readable = false ∧ Tee.seekable = false ∧ Tee.writable = true :=
  ⟨rfl, rfl, rfl, rfl, rfl, rfl, rfl, rfl, rfl⟩

/-- C8: on a fresh `NormalizedStringIO`, writing a text string `s` makes
`getvalue` return exactly `s`; and for any sequence of write attempts,
`getvalue` returns the successfully written chunks concatenated in write
order. -/
theorem getvalue_returns_written_text (s : String) (vs : List PyVal) :
    NormalizedStringIO.getvalue
        ( NormalizedStringIO.write NormalizedStringIO.fresh (PyVal.str s)).1 =
      Except.ok s ∧
    NormalizedStringIO.getvalue (writeSeq NormalizedStringIO.fresh vs) =
      Except.ok (String.join (vs.filterMap normWritten)) := by
  constructor
  · simp [ NormalizedStringIO.write, NormalizedStringIO.normalized,
      NormalizedStringIO.fresh, NormalizedStringIO.getvalue, join_singleton]
  · rw [writeSeq_spec vs NormalizedStringIO.fresh rfl]
    simp [ NormalizedStringIO.getvalue, NormalizedStringIO.fresh]

/-- C9: writing a valid UTF-8 byte sequence to a fresh
`NormalizedStringIO` stores its UTF-8 decoding, which `getvalue` then
returns. -/
theorem write_utf8_bytes_stores_decoding (b : List Nat) (s : String)
    (h : utf8DecodeStr b = some s) :
    NormalizedStringIO.getvalue
        ( NormalizedStringIO.write NormalizedStringIO.fresh (PyVal.bytes b)).1 =
      Except.ok s := by
  simp [ NormalizedStringIO.write, NormalizedStringIO.normalized, h,
    NormalizedStringIO.fresh, NormalizedStringIO.getvalue, join_singleton]

/-- Witness for C9: the byte sequence `68 C3 A9` is valid UTF-8 and
decodes to the two-character text `hé`. -/
theorem write_utf8_bytes_stores_decoding_witness :
    utf8DecodeStr [0x68, 0xC3, 0xA9] = some "hé" ∧
    NormalizedStringIO.getvalue
        ( NormalizedStringIO.write NormalizedStringIO.fresh
          (PyVal.bytes [0x68, 0xC3, 0xA9])).1 =
      Except.ok "hé" :=
  ⟨by decide, write_utf8_bytes_stores_decoding [0x68, 0xC3, 0xA9] "hé"
      (by decide)⟩

/-- C10: if any element of the sequence given to
`NormalizedStringIO.writelines` is neither text nor UTF-8-decodable bytes,
the call raises and appends nothing at all: the whole list is normalized
before anything is written. -/
theorem writelines_invalid_element_writes_nothing
    (buf : NormalizedStringIO) (vs : List PyVal)
    (h : ∃ v ∈ vs, ∃ e, NormalizedStringIO.normalized v = Except.error e) :
    ( NormalizedStringIO.writelines buf vs).1 = buf ∧
    ∃ e2, ( NormalizedStringIO.writelines buf vs).2 = Except.error e2 := by
  rcases h with ⟨v, hmem, e, he⟩
  rcases normalizeAll_error_of_mem vs v e hmem he with ⟨e2, h2⟩
  constructor
  · simp [ NormalizedStringIO.writelines, h2]
  · exact ⟨e2, by simp [ NormalizedStringIO.writelines, h2]⟩

/-- Witness for C10: a list whose second element is an `int` makes
`writelines` on a fresh buffer raise the invalid-input error and write
nothing. -/
theorem writelines_invalid_element_writes_nothing_witness :
    ( NormalizedStringIO.writelines NormalizedStringIO.fresh
        [PyVal.str "a", PyVal.other "int"]).1 = NormalizedStringIO.fresh ∧
    ∃ e2, ( NormalizedStringIO.writelines NormalizedStringIO.fresh
        [PyVal.str "a", PyVal.other "int"]).2 = Except.error e2 :=
  writelines_invalid_element_writes_nothing NormalizedStringIO.fresh
    [PyVal.str "a", PyVal.other "int"]
    ⟨PyVal.other "int", by decide,
      PyErr.valueError "expected str or bytes, got int", rfl⟩

/-- C5: writing text `s` to a `Tee` whose wrapped stream and internal
buffer are open makes the wrapped stream receive exactly `s` through its
own `write` (first), appends `s` — normalization of text is the identity —
to the internal buffer so that `getvalue` is the prior text followed by
`s`, and returns exactly what the wrapped stream's `write` returned. -/
theorem tee_write_forwards_and_buffers (t : Tee) (s : String)
    (h1 : t.textStream.closed = false) (h2 : t.strBuffer.closed = false) :
    (Tee.write t s).1.textStream.writes = t.textStream.writes ++ [s] ∧
    Tee.getvalue (Tee.write t s).1 =
      Except.ok (String.join t.strBuffer.chunks ++ s) ∧
    (Tee.write t s).2 = (TextStream.write t.textStream s).2 := by
  refine ⟨?_, ?_, ?_⟩
  · simp [Tee.write, TextStream.write, h1, NormalizedStringIO.write,
      NormalizedStringIO.normalized, h2]
  · simp [Tee.write, TextStream.write, h1, NormalizedStringIO.write,
      NormalizedStringIO.normalized, h2, Tee.getvalue,
      NormalizedStringIO.getvalue, join_append_singleton]
  · simp [Tee.write, TextStream.write, h1, NormalizedStringIO.write,
      NormalizedStringIO.normalized, h2]

/-- Witness for C5: a tee over an open writable stream with prior buffer
text `p`, written the text `hi`. -/
theorem tee_write_forwards_and_buffers_witness :
    (Tee.write ⟨⟨true, false, []⟩, ⟨["p"], false⟩⟩ "hi").1.textStream.writes =
      [] ++ ["hi"] ∧
    Tee.getvalue (Tee.write ⟨⟨true, false, []⟩, ⟨["p"], false⟩⟩ "hi").1 =
      Except.ok (String.join ["p"] ++ "hi") ∧
    (Tee.write ⟨⟨true, false, []⟩, ⟨["p"], false⟩⟩ "hi").2 =
      (TextStream.write ⟨true, false, []⟩ "hi").2 :=
  tee_write_forwards_and_buffers ⟨⟨true, false, []⟩, ⟨["p"], false⟩⟩ "hi" rfl rfl

/-- C6: `Tee.__init__` raises `io.UnsupportedOperation` exactly when the
supplied stream is not writable; on a writable stream it succeeds, holding
the supplied stream unchanged and a fresh empty internal buffer whose
`getvalue` is the empty string. -/
theorem tee_init_requires_writable (st : TextStream) :
    (st.writableFlag = false →
      Tee.init st = Except.error (PyErr.unsupportedOperation "not writable")) ∧
    (st.writableFlag = true →
      Tee.init st =
        Except.ok { textStream := st, strBuffer := NormalizedStringIO.fresh } ∧
      Tee.getvalue { textStream := st, strBuffer := NormalizedStringIO.fresh } =
        Except.ok "") := by
  constructor
  · intro h
    simp [Tee.init, h]
  · intro h
    constructor
    · simp [Tee.init, h]
    · simp [Tee.getvalue, NormalizedStringIO.getvalue, NormalizedStringIO.fresh,
        String.join]

/-- Witness for C6: construction fails on a non-writable stream and
succeeds, with an empty buffer, on a writable one. -/
theorem tee_init_requires_writable_witness :
    Tee.init ⟨false, false, []⟩ =
      Except.error (PyErr.unsupportedOperation "not writable") ∧
    Tee.init ⟨true, false, []⟩ =
      Except.ok { textStream := ⟨true, false, []⟩,
                  strBuffer := NormalizedStringIO.fresh } ∧
    Tee.getvalue { textStream := ⟨true, false, []⟩,
                   strBuffer := NormalizedStringIO.fresh } = Except.ok "" :=
  ⟨(tee_init_requires_writable ⟨false, false, []⟩).1 rfl,
   ((tee_init_requires_writable ⟨true, false, []⟩).2 rfl).1,
   ((tee_init_requires_writable ⟨true, false, []⟩).2 rfl).2⟩

/-- Counterexample for C2: on the tee obtained by wrapping an open
writable stream, writing the text `x` and then calling `close()`,
`getvalue()` does not succeed: `Tee.close` closes the internal
`NormalizedStringIO` as well, and `io.StringIO.getvalue` raises
`ValueError("I/O operation on closed file")` on a closed object.  The
first conjunct shows the tee used is exactly the one `Tee.__init__`
produces on this stream. -/
theorem tee_getvalue_after_close_raises :
    Tee.init ⟨true, false, []⟩ =
      Except.ok { textStream := ⟨true, false, []⟩,
                  strBuffer := NormalizedStringIO.fresh } ∧
    Tee.getvalue
        (Tee.close (Tee.write { textStream := ⟨true, false, []⟩,
                                strBuffer := NormalizedStringIO.fresh } "x").1) =
      Except.error closedFileErr :=
  ⟨rfl, rfl⟩

/-- C2 as amended: `getvalue()` returns the accumulated buffer text when
the internal buffer is still open (in particular at any time before
`close()` is called), but after `close()` — which closes the internal
buffer too — `getvalue()` raises the closed-file `ValueError`. -/
theorem tee_getvalue_before_close_only (t : Tee)
    (h : t.strBuffer.closed = false) :
    Tee.getvalue t = Except.ok (String.join t.strBuffer.chunks) ∧
    Tee.getvalue (Tee.close t) = Except.error closedFileErr := by
  constructor
  · simp [Tee.getvalue, NormalizedStringIO.getvalue, h]
  · simp [Tee.getvalue, Tee.close, NormalizedStringIO.close,
      NormalizedStringIO.getvalue]

/-- Witness for C2 as amended: a tee holding the text `x`. -/
theorem tee_getvalue_before_close_only_witness :
    Tee.getvalue ⟨⟨true, false, ["x"]⟩, ⟨["x"], false⟩⟩ =
      Except.ok (String.join ["x"]) ∧
    Tee.getvalue (Tee.close ⟨⟨true, false, ["x"]⟩, ⟨["x"], false⟩⟩) =
      Except.error closedFileErr :=
  tee_getvalue_before_close_only ⟨⟨true, false, ["x"]⟩, ⟨["x"], false⟩⟩ rfl

/-- C1 fails on the code: none of the four context managers wraps its
`yield` in `try`/`finally`, so when the body raises, the generator never
resumes past the `yield` and the restoration code is skipped.  At a
concrete world (original `sys.stdout` object `1`, original `sys.stderr`
object `2`, `HOME=/original`, next fresh object identity `10`) and a body
that raises, the slot still holds the replacement object (`10`) — or, for
`change_home`, `HOME` still points at the temporary directory, which is
not deleted either — while the exception propagates; the last two
conjuncts show that a normally exiting body does get the original values
restored, so abnormal exit is NOT "exactly as normal exit". -/
theorem managers_skip_restore_on_exception :
    (capture_stdout ⟨1, 2, some "/original", [], 10, 0⟩
        (fun w => (w, true))).1.sysStdout = 10 ∧
    (capture_stdout ⟨1, 2, some "/original", [], 10, 0⟩
        (fun w => (w, true))).2 = true ∧
    (capture_stderr ⟨1, 2, some "/original", [], 10, 0⟩
        (fun w => (w, true))).1.sysStderr = 10 ∧
    (tee_stderr ⟨1, 2, some "/original", [], 10, 0⟩
        (fun w => (w, true))).1.sysStderr = 10 ∧
    (change_home ⟨1, 2, some "/original", [], 10, 0⟩
        (fun w => (w, true))).1.envHome = some (tmpName 0) ∧
    (change_home ⟨1, 2, some "/original", [], 10, 0⟩
        (fun w => (w, true))).1.dirs = [tmpName 0] ∧
    (capture_stdout ⟨1, 2, some "/original", [], 10, 0⟩
        (fun w => (w, false))).1.sysStdout = 1 ∧
    (capture_stderr ⟨1, 2, some "/original", [], 10, 0⟩
        (fun w => (w, false))).1.sysStderr = 2 ∧
    (tee_stderr ⟨1, 2, some "/original", [], 10, 0⟩
        (fun w => (w, false))).1.sysStderr = 2 ∧
    (change_home ⟨1, 2, some "/original", [], 10, 0⟩
        (fun w => (w, false))).1.envHome = some "/original" := by
  decide

/-- Counterexample for C3: entering `change_home` with `HOME` unset and a
body that completes normally, the temporary directory is deleted (the
directory list is empty again) but `HOME` is not removed: it remains set
to the now-deleted temporary path, because the restoration code only runs
the `saved_home is not None` branch and there is no `del
os.environ['HOME']`. -/
theorem change_home_unset_home_not_removed :
    (change_home ⟨1, 2, none, [], 10, 0⟩
        (fun w => (w, false))).1.dirs = [] ∧
    (change_home ⟨1, 2, none, [], 10, 0⟩
        (fun w => (w, false))).1.envHome = some (tmpName 0) ∧
    (change_home ⟨1, 2, none, [], 10, 0⟩
        (fun w => (w, false))).1.envHome ≠ none := by
  decide

/-- C3 as amended: when the body of `change_home` completes normally, the
temporary directory is recursively deleted and, if `HOME` was set before
entry, it is restored to that prior value; if `HOME` was unset before
entry it is NOT removed — it keeps whatever value it has at the end of
the body (the temporary, now deleted, path unless the body changed it). -/
theorem change_home_normal_exit (w : PyWorld) (body : PyBody) (w2 : PyWorld)
    (hbody : body { w with envHome := some (tmpName w.nextTmp),
                           dirs := w.dirs ++ [tmpName w.nextTmp],
                           nextTmp := w.nextTmp + 1 } = (w2, false)) :
    tmpName w.nextTmp ∉ ((change_home w body).1).dirs ∧
    (∀ h0 : String, w.envHome = some h0 →
      ((change_home w body).1).envHome = some h0) ∧
    (w.envHome = none → ((change_home w body).1).envHome = w2.envHome) ∧
    (change_home w body).2 = false := by
  rcases hh : w.envHome with _ | h0
  · simp [change_home, hbody, hh, List.mem_filter]
  · simp [change_home, hbody, hh, List.mem_filter]

/-- Witness for C3 as amended: `HOME=/original` before entry, a normally
completing body; on exit the temporary directory is gone and `HOME` is
`/original` again. -/
theorem change_home_normal_exit_witness :
    tmpName 0 ∉
      ((change_home ⟨1, 2, some "/original", [], 10, 0⟩
          (fun w => (w, false))).1).dirs ∧
    ((change_home ⟨1, 2, some "/original", [], 10, 0⟩
        (fun w => (w, false))).1).envHome = some "/original" ∧
    (change_home ⟨1, 2, some "/original", [], 10, 0⟩
        (fun w => (w, false))).2 = false := by
  have h := change_home_normal_exit ⟨1, 2, some "/original", [], 10, 0⟩
    (fun w => (w, false)) ⟨1, 2, some (tmpName 0), [tmpName 0], 10, 1⟩ rfl
  exact ⟨h.1, h.2.1 "/original" rfl, h.2.2.2⟩
